import Mathlib

/-!
A shallow embedding of the Bingwa data-sales backend (`src/app.py`) and a
verification of its payment-lifecycle behaviour.

Modelling conventions:
* Python strings holding phone numbers are modelled as `List Char`; other
  strings (transaction ids, messages, receipts) as Lean `String`.
* SQLite rows are Lean structures; tables are lists; `AUTOINCREMENT` row ids
  are assigned as the current length of the (append-only) transactions list.
* `datetime.now()` is an explicit `Timestamp` parameter with a calendar `day`
  and a time-of-day component; `date(created_at) = today` is `day` equality.
* The random transaction id from `generate_transaction_id` is a parameter.
* The outbound HTTP call to the payment provider is a parameter of type
  `GatewayResp` (the dict returned by `initiate_lipana_stk_push`).
* SQLite constraint violations (`NOT NULL` on `recipient_number`, `UNIQUE` on
  `transaction_id`) raise, are caught by the route's `except`, and surface as
  a 500 response with no committed write; modelled as `internalError` with an
  unchanged store.
* `log_audit` records the action name and detail string (request metadata,
  ip and user agent, is outside the pure model).
-/

namespace Bingwa

/-- Calendar time: `day` is the `%Y-%m-%d` part of `datetime.now()`,
`tod` the time within that day. -/
structure Timestamp where
  day : Nat
  tod : Nat
deriving DecidableEq

/-- The status strings stored in the `transactions.status` column. -/
inductive Status
  | pending
  | failed
  | completed
  | pending_verification
deriving DecidableEq

/-- The status string as written into the database / audit detail. -/
def Status.text : Status → String
  | .pending => "pending"
  | .failed => "failed"
  | .completed => "completed"
  | .pending_verification => "pending_verification"

/-- A row of the `transactions` table (`init_db`, src/app.py lines 85-101). -/
structure Transaction where
  rowid : Nat
  transaction_id : String
  phone_number : List Char
  recipient_number : List Char
  package_id : Nat
  amount : Nat
  status : Status
  checkout_request_id : Option String
  mpesa_receipt_number : Option String
  result_description : Option String
  created_at : Timestamp
  updated_at : Timestamp
  completed_at : Option Timestamp
deriving DecidableEq

/-- A row of the `packages` table (src/app.py lines 104-114). -/
structure Package where
  id : Nat
  size : String
  price : Nat
  validity : String
  description : String
  is_active : Bool
deriving DecidableEq

/-- A row of the `audit_log` table (src/app.py lines 125-134), restricted to
the action and detail fields set by `log_audit`. -/
structure AuditEntry where
  action : String
  details : String
deriving DecidableEq

/-- The persistent store: the three SQLite tables. -/
structure DB where
  transactions : List Transaction
  packages : List Package
  audit_log : List AuditEntry
deriving DecidableEq

/-- `validate_phone_number` (src/app.py lines 167-182).  Strips non-digit
characters, then: 12 digits starting `254` pass through; 10 digits starting
`07` have the `0` replaced by `254`; 9 digits starting `7` get `254`
prepended; any other string of 9 to 12 digits passes through unchanged;
everything else is rejected (`None`). -/
def validate_phone_number (phone : List Char) : Option (List Char) :=
  let p := phone.filter Char.isDigit
  if p.length = 12 ∧ List.isPrefixOf ['2','5','4'] p then some p
  else if p.length = 10 ∧ List.isPrefixOf ['0','7'] p then some (['2','5','4'] ++ p.drop 1)
  else if p.length = 9 ∧ List.isPrefixOf ['7'] p then some (['2','5','4'] ++ p)
  else if 9 ≤ p.length ∧ p.length ≤ 12 then some p
  else none

/-- The daily-limit query of `initiate_payment` / `manual_payment`
(src/app.py lines 254-260 and 593-599): the number of rows for this
`phone_number` with `date(created_at)` equal to today and status
`completed`. -/
def dailyCompletedCount (db : DB) (phone : List Char) (today : Nat) : Nat :=
  (db.transactions.filter (fun t =>
    t.phone_number = phone ∧ t.created_at.day = today ∧ t.status = Status.completed)).length

/-- The dict returned by `initiate_lipana_stk_push` (src/app.py lines
344-416), as consumed by `initiate_payment`: either `success: True` with an
optional `checkout_request_id`, or `success: False` with an optional
`message`. -/
inductive GatewayResp
  | success (checkout_request_id : Option String)
  | failure (message : Option String)
deriving DecidableEq

/-- Outcome of `POST /api/initiate-payment`. -/
inductive InitResult
  | missingInput
  | invalidPhone
  | unknownPackage
  | dailyLimit
  | accepted (transaction_id : String) (checkout_request_id : Option String)
  | submitFailed (message : String)
  | internalError
deriving DecidableEq

/-- `initiate_payment` (src/app.py lines 214-342).  Falsy-input check, phone
normalization (payer checked, recipient computed but NOT checked), package
lookup (no `is_active` filter), daily-limit check on completed rows created
today, insert of a `pending` row plus audit entry, then the gateway call
outcome: on success the `checkout_request_id` is written, on failure the row
becomes `failed` with the gateway message as `result_description`.  A `None`
recipient or a duplicate transaction id makes the `INSERT` raise
(`NOT NULL` / `UNIQUE` constraint), caught as a 500 with nothing written. -/
def initiate_payment (db : DB) (now : Timestamp) (phone : List Char)
    (package_id : Nat) (recipient_phone? : Option (List Char))
    (gw : GatewayResp) (txId : String) : DB × InitResult :=
  if phone = [] ∨ package_id = 0 then (db, .missingInput)
  else
    let recipient_phone := recipient_phone?.getD phone
    match validate_phone_number phone with
    | none => (db, .invalidPhone)
    | some formatted_phone =>
      let formatted_recipient := validate_phone_number recipient_phone
      match db.packages.find? (fun p => p.id = package_id) with
      | none => (db, .unknownPackage)
      | some package =>
        if 1 ≤ dailyCompletedCount db formatted_phone now.day then (db, .dailyLimit)
        else
          match formatted_recipient with
          | none => (db, .internalError)
          | some fr =>
            if db.transactions.any (fun t => t.transaction_id = txId) then (db, .internalError)
            else
              let rowid := db.transactions.length
              let tx : Transaction :=
                { rowid := rowid, transaction_id := txId,
                  phone_number := formatted_phone, recipient_number := fr,
                  package_id := package_id, amount := package.price,
                  status := Status.pending, checkout_request_id := none,
                  mpesa_receipt_number := none, result_description := none,
                  created_at := now, updated_at := now, completed_at := none }
              let db1 : DB :=
                { db with
                  transactions := db.transactions ++ [tx],
                  audit_log := db.audit_log ++
                    [⟨"payment_initiated",
                      "Transaction: " ++ txId ++ ", Phone: " ++ String.mk formatted_phone⟩] }
              match gw with
              | .success cid =>
                ({ db1 with
                   transactions := db1.transactions.map (fun t =>
                     if t.rowid = rowid then { t with checkout_request_id := cid } else t) },
                 .accepted txId cid)
              | .failure msg =>
                ({ db1 with
                   transactions := db1.transactions.map (fun t =>
                     if t.rowid = rowid then
                       { t with status := Status.failed,
                                result_description := some (msg.getD "STK Push failed") }
                     else t) },
                 .submitFailed (msg.getD "Failed to initiate payment"))

/-- The callback body fields read by `payment_callback` (src/app.py lines
428-434); each may be absent. -/
structure CallbackPayload where
  ResultCode : Option String
  ResultDesc : Option String
  CheckoutRequestID : Option String
  MpesaReceiptNumber : Option String
  reference : Option String
deriving DecidableEq

/-- Transaction lookup of `payment_callback` (src/app.py lines 440-445): by
`checkout_request_id` when the payload carries a non-empty one, otherwise by
`transaction_id` equal to the payload's `reference`. -/
def callbackFind (db : DB) (payload : CallbackPayload) : Option Transaction :=
  let checkout_request_id := payload.CheckoutRequestID.getD ""
  if checkout_request_id ≠ "" then
    db.transactions.find? (fun t => t.checkout_request_id = some checkout_request_id)
  else
    db.transactions.find? (fun t => t.transaction_id = payload.reference.getD "")

/-- The status computed by `payment_callback` (src/app.py lines 453-467):
`completed` exactly when the payload's `ResultCode` (default `'1'`) is the
string `'0'`, otherwise `failed`. -/
def callbackStatus (payload : CallbackPayload) : Status :=
  if payload.ResultCode.getD "1" = "0" then Status.completed else Status.failed

/-- The `result_description` computed by `payment_callback`: a fixed success
message on success, otherwise the payload's `ResultDesc` defaulting to the
empty string. -/
def callbackDetail (payload : CallbackPayload) : String :=
  if payload.ResultCode.getD "1" = "0" then "Payment completed successfully"
  else payload.ResultDesc.getD ""

/-- The `UPDATE transactions SET ...` of `payment_callback` (src/app.py lines
470-478) applied to one row: status, receipt, description and `updated_at`
are overwritten; `completed_at` is set to now on success and to NULL
otherwise. -/
def callbackApply (now : Timestamp) (payload : CallbackPayload)
    (t : Transaction) : Transaction :=
  { t with
    status := callbackStatus payload,
    mpesa_receipt_number := some (payload.MpesaReceiptNumber.getD ""),
    result_description := some (callbackDetail payload),
    updated_at := now,
    completed_at :=
      if callbackStatus payload = Status.completed then some now else none }

/-- Outcome of `POST /api/payment-callback`. -/
inductive CallbackResult
  | notFound
  | processed
deriving DecidableEq

/-- `payment_callback` (src/app.py lines 418-490).  Resolves the transaction,
404s when the lookup misses, otherwise unconditionally applies the payload's
outcome to the row (keyed by its primary key) and appends one audit entry. -/
def payment_callback (db : DB) (now : Timestamp) (payload : CallbackPayload) :
    DB × CallbackResult :=
  match callbackFind db payload with
  | none => (db, .notFound)
  | some tx =>
    ({ db with
       transactions := db.transactions.map (fun t =>
         if t.rowid = tx.rowid then callbackApply now payload t else t),
       audit_log := db.audit_log ++
         [⟨"payment_callback",
           "Transaction: " ++ tx.transaction_id ++ ", Status: " ++
             (callbackStatus payload).text⟩] },
     .processed)

/-- Outcome of `POST /api/manual-payment`. -/
inductive ManualResult
  | missingInput
  | invalidPhone
  | unknownPackage
  | dailyLimit
  | recorded (transaction_id : String)
  | internalError
deriving DecidableEq

/-- `manual_payment` (src/app.py lines 555-640).  Falsy-input check, payer
phone normalization (the recipient is taken verbatim, never normalized),
package lookup, the same daily-limit check, then insert of a
`pending_verification` row carrying the M-PESA code as receipt, plus an
audit entry.  A duplicate transaction id makes the `INSERT` raise. -/
def manual_payment (db : DB) (now : Timestamp) (phone : List Char)
    (package_id : Nat) (recipient_phone? : Option (List Char))
    (mpesa_code : String) (txId : String) : DB × ManualResult :=
  if phone = [] ∨ package_id = 0 ∨ mpesa_code = "" then (db, .missingInput)
  else
    let recipient_phone := recipient_phone?.getD phone
    match validate_phone_number phone with
    | none => (db, .invalidPhone)
    | some formatted_phone =>
      match db.packages.find? (fun p => p.id = package_id) with
      | none => (db, .unknownPackage)
      | some package =>
        if 1 ≤ dailyCompletedCount db formatted_phone now.day then (db, .dailyLimit)
        else
          if db.transactions.any (fun t => t.transaction_id = txId) then (db, .internalError)
          else
            let tx : Transaction :=
              { rowid := db.transactions.length, transaction_id := txId,
                phone_number := formatted_phone, recipient_number := recipient_phone,
                package_id := package_id, amount := package.price,
                status := Status.pending_verification, checkout_request_id := none,
                mpesa_receipt_number := some mpesa_code,
                result_description := some "Manual payment - pending verification",
                created_at := now, updated_at := now, completed_at := none }
            ({ db with
               transactions := db.transactions ++ [tx],
               audit_log := db.audit_log ++
                 [⟨"manual_payment",
                   "Transaction: " ++ txId ++ ", M-PESA: " ++ mpesa_code⟩] },
             .recorded txId)

/-- The digit-stripping step of `validate_phone_number` (src/app.py line 170). -/
def digitsOnly (s : List Char) : List Char := s.filter Char.isDigit

/-- The primary-key lookup `SELECT * FROM transactions WHERE id = ?` used by the
`UPDATE` statements. -/
def rowById (db : DB) (r : Nat) : Option Transaction :=
  db.transactions.find? (fun t => t.rowid = r)

/-- Status of the transaction with the given client-visible id, as returned by
`check_payment_status` (src/app.py lines 509-537). -/
def statusOf (db : DB) (tid : String) : Option Status :=
  (db.transactions.find? (fun t => t.transaction_id = tid)).map Transaction.status

/-! ### Concrete fixtures used by counterexamples and witnesses -/

/-- Package 2 of the seed catalog (src/app.py line 62). -/
def pkg2 : Package := ⟨2, "250 MB", 20, "24hrs", "Valid 24 hours", true⟩

/-- An inactive catalog entry (`is_active = 0`). -/
def pkgInactive : Package := ⟨6, "1 GB", 19, "1hr", "Valid 1 hour", false⟩

/-- Fresh store holding only package 2. -/
def db0 : DB := ⟨[], [pkg2], []⟩

/-- Fresh store holding only the inactive package. -/
def dbInactive : DB := ⟨[], [pkgInactive], []⟩

/-- The trunk-prefixed test phone number from the spec's scenarios. -/
def phone07 : List Char := "0712345678".toList

/-- Its canonical form. -/
def phone254 : List Char := "254712345678".toList

/-- A transaction completed on day 1 (created and completed that day). -/
def txDone : Transaction :=
  ⟨0, "TXD", phone254, phone254, 2, 20, Status.completed, some "REFD",
   some "RCPTD", some "Payment completed successfully", ⟨1, 5⟩, ⟨1, 6⟩, some ⟨1, 6⟩⟩

/-- Store in which the payer already has a completion created on day 1. -/
def dbDone : DB := ⟨[txDone], [pkg2], []⟩

/-- A transaction created on day 0 but completed on day 1. -/
def txOld : Transaction :=
  ⟨0, "TXO", phone254, phone254, 2, 20, Status.completed, some "REFO",
   some "RCPTO", some "Payment completed successfully", ⟨0, 90⟩, ⟨1, 2⟩, some ⟨1, 2⟩⟩

/-- Store in which the payer's only completion was created yesterday. -/
def dbYesterday : DB := ⟨[txOld], [pkg2], []⟩

/-- One successful initiation on day 1: pending row `TX1` with provider
reference `REF1`. -/
def db1ok : DB :=
  (initiate_payment db0 ⟨1, 10⟩ phone07 2 none
    (GatewayResp.success (some "REF1")) "TX1").1

/-- A success callback for `REF1`. -/
def cbOK : CallbackPayload := ⟨some "0", none, some "REF1", some "RCPT1", none⟩

/-- A failure callback for `REF1` carrying a message. -/
def cbFail : CallbackPayload :=
  ⟨some "1", some "insufficient funds", some "REF1", none, none⟩

/-- A failure callback for `REF1` with no `ResultDesc` field. -/
def cbFailNoDesc : CallbackPayload := ⟨some "1", none, some "REF1", none, none⟩

/-- `db1ok` after the success callback is delivered at day 1, time 30. -/
def db2ok : DB := (payment_callback db1ok ⟨1, 30⟩ cbOK).1

/-- `db2ok` after a later failure callback for the same reference. -/
def db3flip : DB := (payment_callback db2ok ⟨2, 10⟩ cbFail).1

/-- `db2ok` after the identical success callback is delivered again at day 1,
time 77. -/
def db2again : DB := (payment_callback db2ok ⟨1, 77⟩ cbOK).1

/-- The single row of `db1ok`: `TX1` pending with provider reference `REF1`. -/
def tx1pending : Transaction :=
  ⟨0, "TX1", phone254, phone254, 2, 20, Status.pending, some "REF1",
   none, none, ⟨1, 10⟩, ⟨1, 10⟩, none⟩

/-- The single row of `db2ok`: `TX1` as COMPLETED by the success callback. -/
def tx1done : Transaction :=
  ⟨0, "TX1", phone254, phone254, 2, 20, Status.completed, some "REF1",
   some "RCPT1", some "Payment completed successfully", ⟨1, 10⟩, ⟨1, 30⟩, some ⟨1, 30⟩⟩

/-- Two initiations for the same payer on day 1, then both provider callbacks
succeed: the store after all four requests. -/
def dbTwo : DB :=
  (payment_callback
    (payment_callback
      ((initiate_payment
        ((initiate_payment db0 ⟨1, 10⟩ phone07 2 none
            (GatewayResp.success (some "REFA")) "TXA").1)
        ⟨1, 20⟩ phone07 2 none (GatewayResp.success (some "REFB")) "TXB").1)
      ⟨1, 30⟩ ⟨some "0", none, some "REFA", some "RCPTA", none⟩).1
    ⟨1, 40⟩ ⟨some "0", none, some "REFB", some "RCPTB", none⟩).1

/-! ### C4 — phone normalizer -/

/-- C4: the claim says every input outside the three recognized shapes fails
normalization and a malformed string is never returned.  Counterexample: the
10-digit input `0812345678` is none of the recognized shapes (it does not
start with the `07` trunk prefix), yet `validate_phone_number` returns it
unchanged — trunk `0` included — through the 9-to-12-digit catch-all branch
(src/app.py lines 179-180). -/
theorem C4_counterexample :
    validate_phone_number ("0812345678".toList) = some ("0812345678".toList) ∧
    ("0812345678".toList).length = 10 ∧
    ¬ List.isPrefixOf ['0','7'] ("0812345678".toList) ∧
    ¬ List.isPrefixOf ['2','5','4'] ("0812345678".toList) := by decide

/-- C4 amended: after stripping non-digits, a 12-digit string starting `254`
passes through, a 10-digit string starting `07` has the trunk `0` replaced by
`254`, a 9-digit string starting `7` gets `254` prepended (both canonical:
12 digits starting `254`); digit strings shorter than 9 or longer than 12
fail; but any OTHER 9-to-12-digit string passes through unchanged, and every
successful output is one of exactly those three forms. -/
theorem C4_amended_thm (s : List Char) :
    ((digitsOnly s).length = 12 → List.isPrefixOf ['2','5','4'] (digitsOnly s) →
      validate_phone_number s = some (digitsOnly s)) ∧
    ((digitsOnly s).length = 10 → List.isPrefixOf ['0','7'] (digitsOnly s) →
      validate_phone_number s = some (['2','5','4'] ++ (digitsOnly s).drop 1) ∧
      (['2','5','4'] ++ (digitsOnly s).drop 1).length = 12 ∧
      List.isPrefixOf ['2','5','4'] (['2','5','4'] ++ (digitsOnly s).drop 1)) ∧
    ((digitsOnly s).length = 9 → List.isPrefixOf ['7'] (digitsOnly s) →
      validate_phone_number s = some (['2','5','4'] ++ digitsOnly s) ∧
      (['2','5','4'] ++ digitsOnly s).length = 12 ∧
      List.isPrefixOf ['2','5','4'] (['2','5','4'] ++ digitsOnly s)) ∧
    ((digitsOnly s).length < 9 ∨ 12 < (digitsOnly s).length →
      validate_phone_number s = none) ∧
    (∀ r, validate_phone_number s = some r →
      r = digitsOnly s ∨ r = ['2','5','4'] ++ (digitsOnly s).drop 1 ∨
        r = ['2','5','4'] ++ digitsOnly s) := by
  refine ⟨?_, ?_, ?_, ?_, ?_⟩
  · intro h12 hpre
    simp only [validate_phone_number, digitsOnly] at h12 hpre ⊢
    rw [if_pos ⟨h12, hpre⟩]
  · intro h10 hpre
    simp only [validate_phone_number, digitsOnly] at h10 hpre ⊢
    rw [if_neg (by simp [h10]), if_pos ⟨h10, hpre⟩]
    refine ⟨rfl, by simp [h10], ?_⟩
    rw [List.isPrefixOf_iff_prefix]
    exact List.prefix_append _ _
  · intro h9 hpre
    simp only [validate_phone_number, digitsOnly] at h9 hpre ⊢
    rw [if_neg (by simp [h9]), if_neg (by simp [h9]), if_pos ⟨h9, hpre⟩]
    refine ⟨rfl, by simp [h9], ?_⟩
    rw [List.isPrefixOf_iff_prefix]
    exact List.prefix_append _ _
  · intro hlen
    simp only [digitsOnly] at hlen
    simp only [validate_phone_number]
    split_ifs with h1 h2 h3 h4
    · exact absurd h1.1 (by omega)
    · exact absurd h2.1 (by omega)
    · exact absurd h3.1 (by omega)
    · exact absurd h4 (by omega)
    · rfl
  · intro r hr
    simp only [validate_phone_number] at hr
    simp only [digitsOnly]
    split_ifs at hr with h1 h2 h3 h4
    · exact Or.inl (Option.some.inj hr).symm
    · exact Or.inr (Or.inl (Option.some.inj hr).symm)
    · exact Or.inr (Or.inr (Option.some.inj hr).symm)
    · exact Or.inl (Option.some.inj hr).symm

/-- C4 witness: the amended characterization applied to the concrete 10-digit
trunk-prefixed input `0712345678`, giving its canonical form. -/
theorem C4_witness :
    validate_phone_number ("0712345678".toList) = some ("254712345678".toList) :=
  ((C4_amended_thm ("0712345678".toList)).2.1 (by decide) (by decide)).1.trans (by decide)

/-! ### C5 — daily-limit rejection -/

/-- C5 (confirmed): when a valid request arrives from a payer who already has
a `completed` transaction created today, `initiate_payment` returns the
daily-limit policy violation and the store is exactly unchanged — no new row,
no audit entry (src/app.py lines 253-266). -/
theorem C5_thm (db : DB) (now : Timestamp) (phone : List Char)
    (package_id : Nat) (recipient_phone? : Option (List Char))
    (gw : GatewayResp) (txId : String) (fp : List Char) (pkg : Package)
    (hpid : package_id ≠ 0)
    (hphone : validate_phone_number phone = some fp)
    (hpkg : db.packages.find? (fun p => p.id = package_id) = some pkg)
    (hlimit : 1 ≤ dailyCompletedCount db fp now.day) :
    initiate_payment db now phone package_id recipient_phone? gw txId
      = (db, InitResult.dailyLimit) := by
  have hphone_ne : phone ≠ [] := by
    intro h
    rw [h] at hphone
    simp [validate_phone_number] at hphone
  simp only [initiate_payment, hphone, hpkg]
  rw [if_neg (by simp [hphone_ne, hpid])]
  simp [hlimit]

/-- C5 witness: the concrete payer of `dbDone` completed a purchase created on
day 1; a second valid request on day 1 is rejected with the store unchanged. -/
theorem C5_witness :
    validate_phone_number phone07 = some phone254 ∧
    1 ≤ dailyCompletedCount dbDone phone254 1 ∧
    initiate_payment dbDone ⟨1, 50⟩ phone07 2 none
      (GatewayResp.success (some "RX")) "TXE" = (dbDone, InitResult.dailyLimit) :=
  ⟨by decide, by decide,
    C5_thm dbDone ⟨1, 50⟩ phone07 2 none (GatewayResp.success (some "RX")) "TXE"
      phone254 pkg2 (by decide) (by decide) (by decide) (by decide)⟩

/-! ### C6 — recipient phone validation -/

/-- C6: the claim says `initiate_payment` fails with the `InvalidPhone`
validation response whenever normalization of either phone fails.  The code
computes `formatted_recipient` (src/app.py line 232) but never checks it:
with a valid payer and the un-normalizable recipient `12345`, the request
passes validation, and the `INSERT` then binds `None` to the
`recipient_number NOT NULL` column, raising an `IntegrityError` that
surfaces as a 500 internal error — never the 400 `InvalidPhone` response. -/
theorem C6_thm :
    validate_phone_number ("12345".toList) = none ∧
    initiate_payment db0 ⟨1, 10⟩ ("0712345678".toList) 2 (some ("12345".toList))
        (GatewayResp.success (some "RC6")) "TXG"
      = (db0, InitResult.internalError) := by decide

/-! ### C7 — unknown or inactive package -/

/-- C7: the claim says an inactive package is rejected like a missing one.
Counterexample: the package lookup (src/app.py line 243) has no `is_active`
filter, so a purchase of the inactive package 6 is accepted and a transaction
row is created. -/
theorem C7_counterexample :
    pkgInactive.is_active = false ∧
    (initiate_payment dbInactive ⟨1, 10⟩ phone07 6 none
        (GatewayResp.success (some "RI")) "TXI").2
      = InitResult.accepted "TXI" (some "RI") ∧
    (initiate_payment dbInactive ⟨1, 10⟩ phone07 6 none
        (GatewayResp.success (some "RI")) "TXI").1.transactions.length = 1 := by decide

/-- C7 amended: only a package id absent from the catalog is rejected; the
rejection creates no transaction (the store is unchanged).  Inactive packages
are looked up and accepted like active ones. -/
theorem C7_amended_thm (db : DB) (now : Timestamp) (phone : List Char)
    (package_id : Nat) (recipient_phone? : Option (List Char))
    (gw : GatewayResp) (txId : String) (fp : List Char)
    (hpid : package_id ≠ 0)
    (hphone : validate_phone_number phone = some fp)
    (hfind : db.packages.find? (fun p => p.id = package_id) = none) :
    initiate_payment db now phone package_id recipient_phone? gw txId
      = (db, InitResult.unknownPackage) := by
  have hphone_ne : phone ≠ [] := by
    intro h
    rw [h] at hphone
    simp [validate_phone_number] at hphone
  simp only [initiate_payment, hphone, hfind]
  rw [if_neg (by simp [hphone_ne, hpid])]

/-- C7 witness: package id 3 is absent from `db0`'s catalog, so a valid
request for it is rejected with the store unchanged. -/
theorem C7_witness :
    db0.packages.find? (fun p => p.id = 3) = none ∧
    initiate_payment db0 ⟨1, 10⟩ phone07 3 none
      (GatewayResp.success (some "RZ")) "TXZ" = (db0, InitResult.unknownPackage) :=
  ⟨by decide,
    C7_amended_thm db0 ⟨1, 10⟩ phone07 3 none (GatewayResp.success (some "RZ")) "TXZ"
      phone254 (by decide) (by decide) (by decide)⟩

/-! ### Callback machinery lemmas -/

lemma callbackFind_mem {db : DB} {payload : CallbackPayload} {tx : Transaction}
    (h : callbackFind db payload = some tx) : tx ∈ db.transactions := by
  simp only [callbackFind] at h
  split at h <;> exact List.mem_of_find?_eq_some h

lemma find?_map_invariant (l : List Transaction) (p : Transaction → Bool)
    (g : Transaction → Transaction) (hp : ∀ t, p (g t) = p t) :
    (l.map g).find? p = (l.find? p).map g := by
  rw [List.find?_map]
  have hpg : p ∘ g = p := funext hp
  rw [hpg]

lemma payment_callback_found {db : DB} {payload : CallbackPayload} {tx : Transaction}
    (now : Timestamp) (h : callbackFind db payload = some tx) :
    payment_callback db now payload =
      ({ db with
         transactions := db.transactions.map (fun t =>
           if t.rowid = tx.rowid then callbackApply now payload t else t),
         audit_log := db.audit_log ++
           [⟨"payment_callback",
             "Transaction: " ++ tx.transaction_id ++ ", Status: " ++
               (callbackStatus payload).text⟩] },
       CallbackResult.processed) := by
  unfold payment_callback
  rw [h]

lemma callbackApply_rowid (now : Timestamp) (payload : CallbackPayload)
    (t : Transaction) : (callbackApply now payload t).rowid = t.rowid := rfl

lemma rowById_after {db : DB} {payload : CallbackPayload} {tx : Transaction}
    (now : Timestamp) (h : callbackFind db payload = some tx) :
    ∃ v, rowById (payment_callback db now payload).1 tx.rowid
      = some (callbackApply now payload v) := by
  rw [payment_callback_found now h]
  unfold rowById
  rw [find?_map_invariant _ _ _ (fun t => by
    by_cases ht : t.rowid = tx.rowid <;> simp [ht, callbackApply])]
  have hsome : (db.transactions.find? (fun t => t.rowid = tx.rowid)).isSome := by
    rw [List.find?_isSome]
    exact ⟨tx, callbackFind_mem h, by simp⟩
  obtain ⟨v, hv⟩ := Option.isSome_iff_exists.mp hsome
  have hvr : v.rowid = tx.rowid := by
    have := List.find?_some hv
    simpa using this
  refine ⟨v, ?_⟩
  rw [hv]
  simp [hvr]

lemma callbackFind_stable {db : DB} {payload : CallbackPayload} {tx : Transaction}
    (now : Timestamp) (h : callbackFind db payload = some tx) :
    callbackFind (payment_callback db now payload).1 payload
      = some (callbackApply now payload tx) := by
  rw [payment_callback_found now h]
  simp only [callbackFind] at h ⊢
  split at h
  · rw [if_pos (by assumption)] at *
    rw [find?_map_invariant _ _ _ (fun t => by
      by_cases ht : t.rowid = tx.rowid <;> simp [ht, callbackApply])]
    rw [h]
    simp
  · rw [if_neg (by assumption)] at *
    rw [find?_map_invariant _ _ _ (fun t => by
      by_cases ht : t.rowid = tx.rowid <;> simp [ht, callbackApply])]
    rw [h]
    simp

/-! ### C2 — terminal statuses -/

/-- C2: the claim says a COMPLETED transaction's status is never changed by a
later operation.  Counterexample: `TX1` is COMPLETED after the success
callback, and a later failure callback for the same provider reference moves
it to FAILED — `payment_callback` (src/app.py lines 452-478) never inspects
the current status before overwriting it. -/
theorem C2_counterexample :
    statusOf db2ok "TX1" = some Status.completed ∧
    statusOf db3flip "TX1" = some Status.failed := by decide

/-- C2 amended: COMPLETED and FAILED are not terminal against callback
deliveries.  Every callback that resolves to a transaction overwrites that
row's status with the outcome determined by the payload alone (success signal
or not), regardless of the status the row currently has. -/
theorem C2_amended_thm (db : DB) (now : Timestamp) (payload : CallbackPayload)
    (tx : Transaction) (h : callbackFind db payload = some tx) :
    (rowById (payment_callback db now payload).1 tx.rowid).map Transaction.status
      = some (callbackStatus payload) := by
  obtain ⟨v, hv⟩ := rowById_after now h
  rw [hv]
  rfl

/-- C2 witness: the amended theorem applied to the already-COMPLETED store
`db2ok` and the failure callback, whose payload dictates FAILED. -/
theorem C2_witness :
    callbackFind db2ok cbFail = some tx1done ∧
    (rowById (payment_callback db2ok ⟨2, 10⟩ cbFail).1 tx1done.rowid).map Transaction.status
      = some (callbackStatus cbFail) :=
  ⟨by decide, C2_amended_thm db2ok ⟨2, 10⟩ cbFail tx1done (by decide)⟩

/-! ### C3 — duplicate-callback idempotence -/

/-- C3: the claim says a duplicate terminal callback changes nothing: same
final state, `completed_at` untouched, no second audit entry.
Counterexample: delivering the identical success callback again re-runs the
unconditional `UPDATE` (src/app.py lines 470-478), overwriting
`completed_at` with the new current time (day 1 time 30 becomes time 77) and
appending a second `payment_callback` audit row. -/
theorem C3_counterexample :
    (rowById db2ok 0).map Transaction.completed_at = some (some ⟨1, 30⟩) ∧
    (rowById db2again 0).map Transaction.completed_at = some (some ⟨1, 77⟩) ∧
    (db2again.audit_log.filter (fun e => e.action = "payment_callback")).length = 2 := by
  decide

/-- C3 amended: a second delivery of an identical callback payload leaves the
business fields unchanged (same status, receipt and detail as after the first
delivery), but it is not a no-op: `updated_at` and `completed_at` are
overwritten with the second delivery's current time, and a second
`payment_callback` audit entry is appended. -/
theorem C3_amended_thm (db : DB) (t1 t2 : Timestamp) (payload : CallbackPayload)
    (tx : Transaction) (h : callbackFind db payload = some tx) :
    ((payment_callback (payment_callback db t1 payload).1 t2 payload).1.audit_log.length
        = db.audit_log.length + 2) ∧
    ((rowById (payment_callback (payment_callback db t1 payload).1 t2 payload).1 tx.rowid).map
        Transaction.status
      = (rowById (payment_callback db t1 payload).1 tx.rowid).map Transaction.status) ∧
    ((rowById (payment_callback (payment_callback db t1 payload).1 t2 payload).1 tx.rowid).map
        Transaction.mpesa_receipt_number
      = (rowById (payment_callback db t1 payload).1 tx.rowid).map
          Transaction.mpesa_receipt_number) ∧
    ((rowById (payment_callback (payment_callback db t1 payload).1 t2 payload).1 tx.rowid).map
        Transaction.result_description
      = (rowById (payment_callback db t1 payload).1 tx.rowid).map
          Transaction.result_description) ∧
    ((rowById (payment_callback db t1 payload).1 tx.rowid).map Transaction.completed_at
      = some (if callbackStatus payload = Status.completed then some t1 else none)) ∧
    ((rowById (payment_callback (payment_callback db t1 payload).1 t2 payload).1 tx.rowid).map
        Transaction.completed_at
      = some (if callbackStatus payload = Status.completed then some t2 else none)) := by
  have h2 := callbackFind_stable t1 h
  obtain ⟨v1, hv1⟩ := rowById_after t1 h
  obtain ⟨v2, hv2⟩ := rowById_after t2 h2
  rw [callbackApply_rowid] at hv2
  have e1 := payment_callback_found t1 h
  have e2 := payment_callback_found t2 h2
  refine ⟨?_, ?_, ?_, ?_, ?_, ?_⟩
  · rw [e2]
    simp only [List.length_append, List.length_cons, List.length_nil]
    rw [e1]
    simp only [List.length_append, List.length_cons, List.length_nil]
  · rw [hv1, hv2]
    rfl
  · rw [hv1, hv2]
    rfl
  · rw [hv1, hv2]
    rfl
  · rw [hv1]
    rfl
  · rw [hv2]
    rfl

/-- C3 witness: the amended theorem applied to the concrete duplicate
delivery of the success callback for `TX1`, at times 30 and then 77 of
day 1. -/
theorem C3_witness :
    ((payment_callback (payment_callback db1ok ⟨1, 30⟩ cbOK).1 ⟨1, 77⟩ cbOK).1.audit_log.length
        = db1ok.audit_log.length + 2) ∧
    ((rowById (payment_callback (payment_callback db1ok ⟨1, 30⟩ cbOK).1 ⟨1, 77⟩ cbOK).1
        tx1pending.rowid).map Transaction.completed_at
      = some (if callbackStatus cbOK = Status.completed then some ⟨1, 77⟩ else none)) :=
  ⟨(C3_amended_thm db1ok ⟨1, 30⟩ ⟨1, 77⟩ cbOK tx1pending (by decide)).1,
   (C3_amended_thm db1ok ⟨1, 30⟩ ⟨1, 77⟩ cbOK tx1pending (by decide)).2.2.2.2.2⟩

/-! ### C8 — callback outcome mapping -/

/-- C8: the claim says a non-success callback sets `status_detail` from the
payload message, "defaulting to a generic failure string when no message is
present".  Counterexample: with no `ResultDesc` field the code's default is
the empty string (src/app.py line 429), so the FAILED row's
`result_description` is `''` — no generic failure message. -/
theorem C8_counterexample :
    (rowById (payment_callback db1ok ⟨1, 30⟩ cbFailNoDesc).1 0).map Transaction.status
      = some Status.failed ∧
    (rowById (payment_callback db1ok ⟨1, 30⟩ cbFailNoDesc).1 0).map
        Transaction.result_description
      = some (some "") := by decide

/-- C8 amended: for a callback that resolves to a transaction, a `ResultCode`
of `'0'` (after the `'1'` default) makes the row COMPLETED with the payload
receipt (defaulting to the empty string), a fixed success detail, and
`completed_at` set to the current time; any other code makes the row FAILED
with the detail taken from the payload's `ResultDesc` defaulting to the
EMPTY string (not a generic failure message) and `completed_at` cleared. -/
theorem C8_amended_thm (db : DB) (now : Timestamp) (payload : CallbackPayload)
    (tx : Transaction) (h : callbackFind db payload = some tx) :
    (payload.ResultCode.getD "1" = "0" →
      (rowById (payment_callback db now payload).1 tx.rowid).map Transaction.status
        = some Status.completed ∧
      (rowById (payment_callback db now payload).1 tx.rowid).map
          Transaction.mpesa_receipt_number
        = some (some (payload.MpesaReceiptNumber.getD "")) ∧
      (rowById (payment_callback db now payload).1 tx.rowid).map
          Transaction.result_description
        = some (some "Payment completed successfully") ∧
      (rowById (payment_callback db now payload).1 tx.rowid).map Transaction.completed_at
        = some (some now)) ∧
    (payload.ResultCode.getD "1" ≠ "0" →
      (rowById (payment_callback db now payload).1 tx.rowid).map Transaction.status
        = some Status.failed ∧
      (rowById (payment_callback db now payload).1 tx.rowid).map
          Transaction.result_description
        = some (some (payload.ResultDesc.getD "")) ∧
      (rowById (payment_callback db now payload).1 tx.rowid).map Transaction.completed_at
        = some none) := by
  obtain ⟨v, hv⟩ := rowById_after now h
  constructor <;> intro hc <;> rw [hv] <;>
    simp [callbackApply, callbackStatus, callbackDetail, hc]

/-- C8 witness: the amended mapping applied to the concrete success callback
for `TX1`: the row becomes COMPLETED with `completed_at` set. -/
theorem C8_witness :
    ((rowById (payment_callback db1ok ⟨1, 30⟩ cbOK).1 tx1pending.rowid).map Transaction.status
      = some Status.completed) ∧
    ((rowById (payment_callback db1ok ⟨1, 30⟩ cbOK).1 tx1pending.rowid).map
        Transaction.completed_at
      = some (some ⟨1, 30⟩)) :=
  ⟨((C8_amended_thm db1ok ⟨1, 30⟩ cbOK tx1pending (by decide)).1 (by decide)).1,
   ((C8_amended_thm db1ok ⟨1, 30⟩ cbOK tx1pending (by decide)).1 (by decide)).2.2.2⟩

/-! ### C1 — one COMPLETED per payer per day -/

/-- C1: the claim says at most one transaction per payer can reach COMPLETED
per calendar day.  Counterexample: two `initiate_payment` calls for the same
payer on day 1 (both admitted, since the daily check only counts already-
COMPLETED rows), followed by both provider success callbacks, leave TWO
transactions COMPLETED for that payer with creation and completion on
day 1. -/
theorem C1_counterexample :
    (dbTwo.transactions.filter (fun t =>
      t.phone_number = phone254 ∧ t.status = Status.completed ∧
        t.created_at.day = 1 ∧ t.completed_at.map Timestamp.day = some 1)).length = 2 := by
  decide

/-- C1 amended: the code only guarantees the weaker property that once a payer
has a `completed` transaction created today, every further `initiate_payment`
and `manual_payment` call for that payer leaves the store untouched; requests
admitted before the first completion are not bounded, so several of them can
still complete on the same day. -/
theorem C1_amended_thm (db : DB) (now : Timestamp) (phone : List Char)
    (package_id : Nat) (recipient_phone? : Option (List Char)) (gw : GatewayResp)
    (mpesa txIdA txIdB : String) (fp : List Char)
    (hphone : validate_phone_number phone = some fp)
    (hlimit : 1 ≤ dailyCompletedCount db fp now.day) :
    (initiate_payment db now phone package_id recipient_phone? gw txIdA).1 = db ∧
    (manual_payment db now phone package_id recipient_phone? mpesa txIdB).1 = db := by
  constructor
  · by_cases h0 : phone = [] ∨ package_id = 0
    · simp [initiate_payment, h0]
    · simp only [initiate_payment, if_neg h0, hphone]
      cases hfind : db.packages.find? (fun p => p.id = package_id) with
      | none => simp [hfind]
      | some pkg => simp [hfind, hlimit]
  · by_cases h0 : phone = [] ∨ package_id = 0 ∨ mpesa = ""
    · simp [manual_payment, h0]
    · simp only [manual_payment, if_neg h0, hphone]
      cases hfind : db.packages.find? (fun p => p.id = package_id) with
      | none => simp [hfind]
      | some pkg => simp [hfind, hlimit]

/-- C1 witness: in `dbDone` the payer completed a purchase created on day 1;
both entry points called again on day 1 leave the store exactly unchanged. -/
theorem C1_witness :
    1 ≤ dailyCompletedCount dbDone phone254 1 ∧
    (initiate_payment dbDone ⟨1, 60⟩ phone07 2 none
      (GatewayResp.success (some "RW")) "TXW").1 = dbDone ∧
    (manual_payment dbDone ⟨1, 60⟩ phone07 2 none "QQ1" "TXW2").1 = dbDone :=
  ⟨by decide,
   (C1_amended_thm dbDone ⟨1, 60⟩ phone07 2 none (GatewayResp.success (some "RW"))
      "QQ1" "TXW" "TXW2" phone254 (by decide) (by decide)).1,
   (C1_amended_thm dbDone ⟨1, 60⟩ phone07 2 none (GatewayResp.success (some "RW"))
      "QQ1" "TXW" "TXW2" phone254 (by decide) (by decide)).2⟩

/-! ### C9 — canonical phone storage -/

/-- C9: the claim says every row ever created stores both phones in canonical
`254...` form.  Counterexample: `manual_payment` inserts the recipient phone
exactly as submitted (src/app.py line 617), so the row for `TXM` stores
`0712345678` — trunk prefix `0`, not canonical. -/
theorem C9_counterexample :
    ((manual_payment db0 ⟨1, 10⟩ phone07 2 (some phone07) "QGH7KL" "TXM").1.transactions.find?
        (fun t => t.transaction_id = "TXM")).map Transaction.recipient_number
      = some phone07 ∧
    ¬ List.isPrefixOf ['2','5','4'] phone07 ∧
    phone07.head? = some '0' := by decide

/-- C9 amended: rows created by `initiate_payment` store the normalizer's
output for both payer and recipient, while rows created by `manual_payment`
store the normalizer's output only for the payer and the recipient verbatim
as submitted (and by C4 the normalizer's output itself is canonical only for
the three recognized shapes). -/
theorem C9_amended_thm (db : DB) (now : Timestamp) (phone : List Char)
    (package_id : Nat) (recipient_phone? : Option (List Char)) (gw : GatewayResp)
    (mpesa txId : String) (fp fr : List Char) (pkg : Package)
    (hpid : package_id ≠ 0) (hmp : mpesa ≠ "")
    (hphone : validate_phone_number phone = some fp)
    (hrec : validate_phone_number (recipient_phone?.getD phone) = some fr)
    (hpkg : db.packages.find? (fun p => p.id = package_id) = some pkg)
    (hlimit : dailyCompletedCount db fp now.day = 0)
    (hfresh : db.transactions.any (fun t => t.transaction_id = txId) = false) :
    (∃ t ∈ (initiate_payment db now phone package_id recipient_phone? gw txId).1.transactions,
        t.transaction_id = txId ∧ t.phone_number = fp ∧ t.recipient_number = fr) ∧
    (∃ t ∈ (manual_payment db now phone package_id recipient_phone? mpesa txId).1.transactions,
        t.transaction_id = txId ∧ t.phone_number = fp ∧
          t.recipient_number = recipient_phone?.getD phone) := by
  have hphone_ne : phone ≠ [] := by
    intro h
    rw [h] at hphone
    simp [validate_phone_number] at hphone
  constructor
  · unfold initiate_payment
    rw [if_neg (show ¬ (phone = [] ∨ package_id = 0) by simp [hphone_ne, hpid])]
    simp only [hphone, hrec, hpkg]
    rw [hlimit, if_neg (show ¬ (1 : Nat) ≤ 0 by omega),
      hfresh, if_neg (show ¬ (false = true) by simp)]
    cases gw with
    | success cid =>
      refine ⟨_, List.mem_map_of_mem _ (List.mem_append_right _ (List.mem_singleton_self _)), ?_⟩
      simp
    | failure msg =>
      refine ⟨_, List.mem_map_of_mem _ (List.mem_append_right _ (List.mem_singleton_self _)), ?_⟩
      simp
  · unfold manual_payment
    rw [if_neg (show ¬ (phone = [] ∨ package_id = 0 ∨ mpesa = "") by
      simp [hphone_ne, hpid, hmp])]
    simp only [hphone, hpkg]
    rw [hlimit, if_neg (show ¬ (1 : Nat) ≤ 0 by omega),
      hfresh, if_neg (show ¬ (false = true) by simp)]
    exact ⟨_, List.mem_append_right _ (List.mem_singleton_self _), rfl, rfl, rfl⟩

/-- C9 witness: concrete calls with payer and recipient `0712345678`: the
push-flow row stores both in canonical form, while the manual row keeps the
submitted recipient verbatim. -/
theorem C9_witness :
    (∃ t ∈ (initiate_payment db0 ⟨1, 10⟩ phone07 2 (some phone07)
        (GatewayResp.success (some "R9")) "TX9").1.transactions,
      t.transaction_id = "TX9" ∧ t.phone_number = phone254 ∧ t.recipient_number = phone254) ∧
    (∃ t ∈ (manual_payment db0 ⟨1, 10⟩ phone07 2 (some phone07) "QGH7KL" "TX9").1.transactions,
      t.transaction_id = "TX9" ∧ t.phone_number = phone254 ∧
        t.recipient_number = (some phone07).getD phone07) :=
  C9_amended_thm db0 ⟨1, 10⟩ phone07 2 (some phone07) (GatewayResp.success (some "R9"))
    "QGH7KL" "TX9" phone254 phone254 pkg2 (by decide) (by decide) (by decide) (by decide)
    (by decide) (by decide) (by decide)

/-! ### C10 — daily limit counts by creation date -/

lemma dailyCompletedCount_eq_zero {db : DB} {fp : List Char} {d : Nat}
    (hprev : ∀ t ∈ db.transactions, t.phone_number = fp → t.created_at.day ≠ d) :
    dailyCompletedCount db fp d = 0 := by
  unfold dailyCompletedCount
  rw [List.length_eq_zero, List.filter_eq_nil_iff]
  intro t ht
  simp only [decide_eq_true_eq, not_and]
  intro h1 h2
  exact absurd h2 (hprev t ht h1)

/-- C10 (confirmed, implicit): the daily-limit query filters on
`date(created_at)`, not on the completion date; a payer whose only COMPLETED
transactions were created on earlier days is never rejected with the
daily-limit violation today, by either entry point. -/
theorem C10_thm (db : DB) (now : Timestamp) (phone : List Char)
    (package_id : Nat) (recipient_phone? : Option (List Char)) (gw : GatewayResp)
    (mpesa txIdA txIdB : String) (fp : List Char)
    (hphone : validate_phone_number phone = some fp)
    (hprev : ∀ t ∈ db.transactions, t.phone_number = fp → t.created_at.day ≠ now.day) :
    (initiate_payment db now phone package_id recipient_phone? gw txIdA).2
        ≠ InitResult.dailyLimit ∧
    (manual_payment db now phone package_id recipient_phone? mpesa txIdB).2
        ≠ ManualResult.dailyLimit := by
  have hz := dailyCompletedCount_eq_zero hprev
  constructor
  · by_cases h0 : phone = [] ∨ package_id = 0
    · simp [initiate_payment, h0]
    · cases hfind : db.packages.find? (fun p => p.id = package_id) with
      | none => simp [initiate_payment, if_neg h0, hphone, hfind]
      | some pkg =>
        cases hrec : validate_phone_number (recipient_phone?.getD phone) with
        | none => simp [initiate_payment, if_neg h0, hphone, hfind, hrec, hz]
        | some fr =>
          cases gw with
          | success cid =>
            simp only [initiate_payment, if_neg h0, hphone, hfind, hrec, hz]
            intro hres
            split_ifs at hres
            simp_all
          | failure msg =>
            simp only [initiate_payment, if_neg h0, hphone, hfind, hrec, hz]
            intro hres
            split_ifs at hres
            simp_all
  · by_cases h0 : phone = [] ∨ package_id = 0 ∨ mpesa = ""
    · simp [manual_payment, h0]
    · cases hfind : db.packages.find? (fun p => p.id = package_id) with
      | none => simp [manual_payment, if_neg h0, hphone, hfind]
      | some pkg =>
        simp only [manual_payment, if_neg h0, hphone, hfind, hz]
        intro hres
        split_ifs at hres
        simp_all

/-- C10 witness: in `dbYesterday` the payer's only completion was created on
day 0 and completed on day 1; neither entry point rejects a day-1 purchase
with the daily-limit violation. -/
theorem C10_witness :
    txOld.status = Status.completed ∧ txOld.created_at.day = 0 ∧
    txOld.completed_at.map Timestamp.day = some 1 ∧
    (initiate_payment dbYesterday ⟨1, 50⟩ phone07 2 none
        (GatewayResp.success (some "RY")) "TXF").2 ≠ InitResult.dailyLimit ∧
    (manual_payment dbYesterday ⟨1, 50⟩ phone07 2 none "QQ2" "TXF2").2
        ≠ ManualResult.dailyLimit :=
  ⟨by decide, by decide, by decide,
   (C10_thm dbYesterday ⟨1, 50⟩ phone07 2 none (GatewayResp.success (some "RY"))
      "QQ2" "TXF" "TXF2" phone254 (by decide) (by decide)).1,
   (C10_thm dbYesterday ⟨1, 50⟩ phone07 2 none (GatewayResp.success (some "RY"))
      "QQ2" "TXF" "TXF2" phone254 (by decide) (by decide)).2⟩

end Bingwa
